import Mathlib

/-!
Shallow embedding of the MyVoiceger voice-conversion pipeline — the signal
processing core in `src/rvc_pipeline.py` and the vocal/instrumental
separator in `src/audio_utils.py` — together with proofs about it.

Modelling conventions:
* floating-point arithmetic is idealized over `ℚ` (a float literal such as
  `0.5` becomes the exact rational `1 / 2`); real-valued facts about the
  pitch-shift factor `2 ** (s / 12)` are stated over `ℝ`;
* numpy arrays become lists: a 1-D array is a `List ℚ`, a 2-D array a
  `List (List ℚ)`;
* library calls whose output is analytically intractable (the LPC fit and
  polynomial root finding inside `estimate_formants`, `librosa.piptrack`,
  `librosa.load`, the STFT pair, `librosa.effects.preemphasis`, the
  pedalboard effect chain, the external `audio_separator` model) are
  abstracted as explicit function parameters, so every theorem quantifies
  over their possible outputs; everything surrounding those calls is
  embedded statement by statement from the source;
* Python exceptions become `Except` values; a total Lean function models a
  Python function that cannot raise.
-/

/-! ### Formant estimation (`rvc_pipeline.py`, `estimate_formants`) -/

/-- Default formant fallback set `np.array([700, 1220, 2600])` returned by
`estimate_formants` on every insufficient-data or error path
(`rvc_pipeline.py` lines 368, 372, 375, 378). -/
def defaultFormants : List ℚ := [700, 1220, 2600]

/-- Embeds `rvc_pipeline.py` lines 360-368: the filtering of candidate
formant frequencies to the window between 50 Hz (strict, line 361) and the
integer division `sr // 2` (strict, line 360), followed by the
empty-check/`np.sort` of lines 364-368.  A real number is always finite, so
the `np.isfinite` filter of line 362 is the identity here.  `np.sort` is
ascending, modelled by `mergeSort`. -/
def formantsPostFilter (cand : List ℚ) (sr : ℕ) : List ℚ :=
  if ((cand.filter (fun f => decide (f < ((sr / 2 : ℕ) : ℚ)))).filter
      (fun f => decide ((50 : ℚ) < f))).isEmpty then defaultFormants
  else ((cand.filter (fun f => decide (f < ((sr / 2 : ℕ) : ℚ)))).filter
      (fun f => decide ((50 : ℚ) < f))).mergeSort (fun a b => a ≤ b)

/-- Embeds `estimate_formants` (`rvc_pipeline.py` lines 344-378).
`rootFreqs` abstracts the chain `librosa.lpc` → `np.roots` → keep roots with
non-negative imaginary part → `np.angle` → `* sr / (2π)`: it is either the
resulting candidate frequency list in Hz, or `Except.error ()` when any of
those calls raises (both `except` arms of the source return the default).
The source guard is `lpc_order > 0 and len(audio_data) > 100` with
`lpc_order = min(12, len(audio_data) // 100)`. -/
def estimate_formants (rootFreqs : Except Unit (List ℚ)) (audioLen sr : ℕ) : List ℚ :=
  if 0 < min 12 (audioLen / 100) ∧ 100 < audioLen then
    match rootFreqs with
    | Except.error _ => defaultFormants
    | Except.ok cand => formantsPostFilter cand sr
  else defaultFormants

/-! ### Formant shifting (`rvc_pipeline.py`, `apply_formant_shift` /
`apply_formant_shift_filter`) -/

/-- The per-band gain of `apply_formant_shift_filter` (`rvc_pipeline.py`
lines 409-415): `1.0 + (formant_shift - 1.0) * 0.5` when
`formant_shift > 1.0`, else `0.8 + (formant_shift - 1.0) * 0.4`. -/
def formantScale (formant_shift : ℚ) : ℚ :=
  if 1 < formant_shift then 1 + (formant_shift - 1) * (1 / 2)
  else 4 / 5 + (formant_shift - 1) * (2 / 5)

/-- The frequency band `band_mask` of formant index `i`
(`rvc_pipeline.py` lines 396-407): first and last formants get
`[0.7 * shifted, 1.3 * shifted]`; interior formants span from the previous
shifted centre to the next shifted centre (the `if i > 0` and
`if i < len(formants) - 1` guards of lines 405-406 are kept as written in
the source even though they are always true on the interior branch). -/
def formantBand (formants : List ℚ) (formant_shift : ℚ) (i : ℕ) : ℚ × ℚ :=
  if i = 0 then
    (formants.getD i 0 * formant_shift * (7 / 10),
      formants.getD i 0 * formant_shift * (13 / 10))
  else if i = formants.length - 1 then
    (formants.getD i 0 * formant_shift * (7 / 10),
      formants.getD i 0 * formant_shift * (13 / 10))
  else
    ((if 0 < i then formants.getD (i - 1) 0 * formant_shift
      else formants.getD i 0 * formant_shift * (7 / 10)),
      (if i < formants.length - 1 then formants.getD (i + 1) 0 * formant_shift
      else formants.getD i 0 * formant_shift * (13 / 10)))

/-- Membership of a frequency `f` in band `i`: the mask
`(freqs >= lo) & (freqs <= hi)` of `rvc_pipeline.py` lines 399-407, both
bounds inclusive. -/
def inFormantBand (formants : List ℚ) (formant_shift : ℚ) (i : ℕ) (f : ℚ) : Bool :=
  decide ((formantBand formants formant_shift i).1 ≤ f) &&
    decide (f ≤ (formantBand formants formant_shift i).2)

/-- One iteration of the `for i, formant_freq in enumerate(formants)` loop
of `apply_formant_shift_filter` (`rvc_pipeline.py` lines 392-415):
`shifted_magnitude[band_mask] *= gain` scales every frequency row whose
centre frequency falls in the band.  Rows of `mag` are paired positionally
with `freqs` (in the source both have the STFT bin count). -/
def filterStep (freqs formants : List ℚ) (formant_shift : ℚ)
    (mag : List (List ℚ)) (i : ℕ) : List (List ℚ) :=
  List.zipWith
    (fun f row =>
      if inFormantBand formants formant_shift i f then
        row.map (fun m => m * formantScale formant_shift)
      else row)
    freqs mag

/-- Embeds `apply_formant_shift_filter` (`rvc_pipeline.py` lines 381-417):
the loop body `filterStep` applied for `i = 0 .. len(formants) - 1` to a
copy of the magnitude matrix. -/
def apply_formant_shift_filter (magnitude : List (List ℚ)) (freqs formants : List ℚ)
    (formant_shift : ℚ) : List (List ℚ) :=
  (List.range formants.length).foldl (filterStep freqs formants formant_shift) magnitude

/-- The spectral core of `apply_formant_shift` (`rvc_pipeline.py` lines
321-338) between the STFT analysis and the inverse STFT: the magnitude
matrix is passed through `apply_formant_shift_filter` while the
re-synthesis `shifted_magnitude * np.exp(1j * phase)` reuses the phase
matrix unchanged. -/
def apply_formant_shift_core (magnitude phase : List (List ℚ)) (freqs formants : List ℚ)
    (formant_shift : ℚ) : List (List ℚ) × List (List ℚ) :=
  (apply_formant_shift_filter magnitude freqs formants formant_shift, phase)

/-! ### Noise removal (`rvc_pipeline.py`, `remove_noise_simple`) -/

/-- Embeds `remove_noise_simple` (`rvc_pipeline.py` lines 492-517) at
spectrogram level.  `magnitude` is `np.abs(stft)` stored row-major (one
inner list per frequency bin over frames); `noiseLen = int(0.5 * sr)` and
`audioLen = len(audio_data)` — the source compares the sample count with
the signal length (line 503) while slicing spectrogram columns with the
same number (line 504), exactly as written.  Per row: the noise profile is
the mean over the first `noiseLen` entries (`np.mean(..., axis=1,
keepdims=True)`; numpy slicing keeps at most `noiseLen` entries), the
profile times 0.5 is subtracted from the magnitude, and the result is
floored at 0.1 times the signal magnitude (`np.maximum(cleaned_magnitude,
magnitude * 0.1)`, line 509).  When the guard fails the source returns the
input audio unchanged, here the magnitude unchanged.  `np.mean` of an
empty slice (NaN in numpy) is the rational `0 / 0 = 0` here; no claim
involves that corner. -/
def remove_noise_simple (magnitude : List (List ℚ)) (noiseLen audioLen : ℕ) :
    List (List ℚ) :=
  if noiseLen < audioLen then
    magnitude.map (fun row =>
      row.map (fun m =>
        max (m - ((row.take noiseLen).sum / ((row.take noiseLen).length : ℚ)) * (1 / 2))
          (m * (1 / 10))))
  else magnitude

/-- Modelled from the spec, for comparison with `remove_noise_simple`
(refinement check of the Target Preprocessor's noise-removal sentence):
subtract `0.5 ×` the noise POWER spectrum from the signal POWER spectrum
and floor the result at `0.1 ×` the noise power; this definition returns
the cleaned power spectrum.  It follows the spec's words, not the
source. -/
def remove_noise_spec_power (magnitude : List (List ℚ)) (noiseLen : ℕ) :
    List (List ℚ) :=
  magnitude.map (fun row =>
    row.map (fun m =>
      max (m ^ 2 - (((row.take noiseLen).map (fun x => x ^ 2)).sum /
            (((row.take noiseLen).length : ℚ))) * (1 / 2))
        ((((row.take noiseLen).map (fun x => x ^ 2)).sum /
            (((row.take noiseLen).length : ℚ))) * (1 / 10))))

/-! ### Pitch extraction (`rvc_pipeline.py`, `extract_pitch_rmvpe` /
`extract_pitch_harvest` / `extract_pitch_pm`) and the `convert_voice`
pitch stage -/

/-- The output of `librosa.piptrack`: the pitches matrix and the magnitudes
matrix, stored column-major (one inner list per time frame over frequency
bins, so the first component's frame `t` is `pitches[:, t]`). -/
abbrev PiptrackResult := List (List ℚ) × List (List ℚ)

/-- `np.argmax` over a rational list: the index of the first occurrence of
the maximum; 0 on the empty list. -/
def argmaxIdx : List ℚ → ℕ
  | [] => 0
  | x :: xs => if x < xs.getD (argmaxIdx xs) x then argmaxIdx xs + 1 else 0

/-- Embeds `extract_pitch_rmvpe` (`rvc_pipeline.py` lines 246-262):
`librosa.piptrack` is the abstract parameter `piptrack` as a function of
the salience threshold, called at threshold 0.1; then for every frame `t`
the source takes `index = pitches[:, t].argmax()` — argmax over the PITCH
column — and appends `pitches[index, t]` to the pitch list and
`magnitudes[index, t]` to the magnitude list. -/
def extract_pitch_rmvpe (piptrack : ℚ → PiptrackResult) : List ℚ × List ℚ :=
  ((List.zipWith (fun pcol mcol => (pcol.getD (argmaxIdx pcol) 0, mcol.getD (argmaxIdx pcol) 0))
      (piptrack (1 / 10)).1 (piptrack (1 / 10)).2).map Prod.fst,
    (List.zipWith (fun pcol mcol => (pcol.getD (argmaxIdx pcol) 0, mcol.getD (argmaxIdx pcol) 0))
      (piptrack (1 / 10)).1 (piptrack (1 / 10)).2).map Prod.snd)

/-- Embeds `extract_pitch_harvest` (`rvc_pipeline.py` lines 265-279): the
same loop as `extract_pitch_rmvpe`, duplicated in the source, at threshold
0.2. -/
def extract_pitch_harvest (piptrack : ℚ → PiptrackResult) : List ℚ × List ℚ :=
  ((List.zipWith (fun pcol mcol => (pcol.getD (argmaxIdx pcol) 0, mcol.getD (argmaxIdx pcol) 0))
      (piptrack (2 / 10)).1 (piptrack (2 / 10)).2).map Prod.fst,
    (List.zipWith (fun pcol mcol => (pcol.getD (argmaxIdx pcol) 0, mcol.getD (argmaxIdx pcol) 0))
      (piptrack (2 / 10)).1 (piptrack (2 / 10)).2).map Prod.snd)

/-- Embeds `extract_pitch_pm` (`rvc_pipeline.py` lines 282-296): the same
loop again, at threshold 0.3. -/
def extract_pitch_pm (piptrack : ℚ → PiptrackResult) : List ℚ × List ℚ :=
  ((List.zipWith (fun pcol mcol => (pcol.getD (argmaxIdx pcol) 0, mcol.getD (argmaxIdx pcol) 0))
      (piptrack (3 / 10)).1 (piptrack (3 / 10)).2).map Prod.fst,
    (List.zipWith (fun pcol mcol => (pcol.getD (argmaxIdx pcol) 0, mcol.getD (argmaxIdx pcol) 0))
      (piptrack (3 / 10)).1 (piptrack (3 / 10)).2).map Prod.snd)

/-- The three extractors as one algorithm parameterized by the salience
threshold — the only parameter in which the three source functions
differ. -/
def extract_pitch_threshold (piptrack : ℚ → PiptrackResult) (threshold : ℚ) :
    List ℚ × List ℚ :=
  ((List.zipWith (fun pcol mcol => (pcol.getD (argmaxIdx pcol) 0, mcol.getD (argmaxIdx pcol) 0))
      (piptrack threshold).1 (piptrack threshold).2).map Prod.fst,
    (List.zipWith (fun pcol mcol => (pcol.getD (argmaxIdx pcol) 0, mcol.getD (argmaxIdx pcol) 0))
      (piptrack threshold).1 (piptrack threshold).2).map Prod.snd)

/-- Modelled from the spec, for comparison with the source extractors
(refinement check of the per-frame selection sentence): record the
frequency and salience of the bin with maximal SALIENCE, i.e. argmax over
the magnitudes column.  It follows the spec's words, not the source. -/
def extract_pitch_bySalience (piptrack : ℚ → PiptrackResult) (threshold : ℚ) :
    List ℚ × List ℚ :=
  ((List.zipWith (fun pcol mcol => (pcol.getD (argmaxIdx mcol) 0, mcol.getD (argmaxIdx mcol) 0))
      (piptrack threshold).1 (piptrack threshold).2).map Prod.fst,
    (List.zipWith (fun pcol mcol => (pcol.getD (argmaxIdx mcol) 0, mcol.getD (argmaxIdx mcol) 0))
      (piptrack threshold).1 (piptrack threshold).2).map Prod.snd)

/-- Embeds step 4 of `convert_voice` restricted to the pitch track
(`rvc_pipeline.py` lines 71-74): when `pitch_shift != 0` the extracted
track is multiplied elementwise by `2 ** (pitch_shift / 12)` (Python true
division of ints, so the exponent is the rational `pitch_shift / 12`);
otherwise the track is untouched.  The floating-point power `2 ** q` is
the abstract parameter `pow2`; the theorems pin it to the real `2 ^ q`. -/
def pitch_track_shift (pow2 : ℚ → ℝ) (pitch_shift : ℤ) (pitches : List ℝ) : List ℝ :=
  if pitch_shift ≠ 0 then pitches.map (fun p => p * pow2 ((pitch_shift : ℚ) / 12))
  else pitches

/-- Embeds the pitch-extraction dispatch of `convert_voice`
(`rvc_pipeline.py` lines 62-68): `"rmvpe"` and `"harvest"` select their
extractors and the `else` branch routes every other selector string to
`extract_pitch_pm`; no branch raises. -/
def select_pitch_track (piptrack : ℚ → PiptrackResult) (algorithm : String) :
    List ℚ × List ℚ :=
  if algorithm = "rmvpe" then extract_pitch_rmvpe piptrack
  else if algorithm = "harvest" then extract_pitch_harvest piptrack
  else extract_pitch_pm piptrack

/-! ### Vocal/instrumental separation (`audio_utils.py`,
`separate_vocals_instrumental` and `_simple_vocal_separation`) -/

/-- Python exception classes relevant to the separator's try/except
structure: `ImportError` (caught separately at `audio_utils.py` line 164),
file-system errors (`FileNotFoundError`, `OSError`, a failing
`shutil.copy2`), and any other `Exception`. -/
inductive PyErr where
  | importError
  | fsError
  | exc
deriving DecidableEq

/-- A file's contents: raw bytes, or a WAV file written by `sf.write`
carrying a sample rate and channel data.  A WAV container always includes
a non-empty header on disk, so `FileData.wav` counts as non-empty
regardless of its sample count. -/
inductive FileData where
  | bytes (raw : List ℕ)
  | wav (sr : ℕ) (channels : List (List ℚ))
deriving DecidableEq

/-- The file system: an association list from paths to contents; writing
prepends a binding, which shadows older ones under `List.lookup`. -/
abbrev FS := List (String × FileData)

/-- Writing a file. -/
def fsSet (fs : FS) (p : String) (d : FileData) : FS := (p, d) :: fs

/-- Whether a file is non-empty on disk: raw bytes must form a non-empty
list; a WAV file always has a header. -/
def fileNonEmpty : FileData → Bool
  | FileData.bytes raw => decide (raw ≠ [])
  | FileData.wav _ _ => true

/-- `shutil.copy2 src dst`: byte-identical copy of the source file; raises
a file-system error when the source is missing. -/
def copy2 (fs : FS) (src dst : String) : Except PyErr FS :=
  match fs.lookup src with
  | some d => Except.ok (fsSet fs dst d)
  | none => Except.error PyErr.fsError

/-- Lines 204-211 of `audio_utils.py`: a mono load (1-D array, or a single
channel row) is duplicated to fake stereo. -/
def stereoFix (y : List (List ℚ)) : List (List ℚ) :=
  if y.length = 1 then [y.getD 0 [], y.getD 0 []] else y

/-- The optional pedalboard effect chain of `audio_utils.py` lines
229-238: applied when the library is present (`some board`), identity when
it is missing; the inner `try` of lines 236-238 swallows effect errors, so
a total function models the application. -/
def pedalApply (pedal : Option (List ℚ → ℕ → List ℚ)) (v : List ℚ) (sr : ℕ) : List ℚ :=
  match pedal with
  | some board => board v sr
  | none => v

/-- Embeds `_simple_vocal_separation` (`audio_utils.py` lines 183-256),
the separator's State B.  `load` abstracts `librosa.load(input_path,
sr=None, mono=False)` returning channel-major data and the sample rate, or
failing (any exception inside the function is re-raised as an `Exception`
by lines 254-256, modelled by propagating the error; loading a missing
file fails with a file-system error).  `preemph` abstracts
`librosa.effects.preemphasis`.  With two or more channels after
`stereoFix`, the vocal estimate is the pre-emphasized effect-processed
`(L + R) / 2` and the instrumental estimate `L - R`, both written as mono
WAV files with `sf.write` (lines 214-245); with fewer than two channels
the input file is copied to both outputs (lines 247-252). -/
def simple_vocal_separation (load : FileData → Except PyErr (List (List ℚ) × ℕ))
    (preemph : List ℚ → List ℚ) (pedal : Option (List ℚ → ℕ → List ℚ))
    (input vocal instr : String) (fs : FS) : Except PyErr FS :=
  match fs.lookup input with
  | none => Except.error PyErr.fsError
  | some fd =>
    match load fd with
    | Except.error e => Except.error e
    | Except.ok (y0, sr) =>
      if 2 ≤ (stereoFix y0).length then
        Except.ok
          (fsSet
            (fsSet fs vocal
              (FileData.wav sr
                [pedalApply pedal
                  (preemph (List.zipWith (fun l r => (l + r) / 2)
                    ((stereoFix y0).getD 0 []) ((stereoFix y0).getD 1 []))) sr]))
            instr
            (FileData.wav sr
              [List.zipWith (fun l r => l - r)
                ((stereoFix y0).getD 0 []) ((stereoFix y0).getD 1 [])]))
      else
        match copy2 fs input vocal with
        | Except.error e => Except.error e
        | Except.ok fs1 =>
          match copy2 fs1 input instr with
          | Except.error e => Except.error e
          | Except.ok fs2 => Except.ok fs2

/-- Embeds `separate_vocals_instrumental` (`audio_utils.py` lines 52-181).
`stateA` abstracts the whole primary branch (lines 75-162: the CPU-forced
`torch` and `audio_separator` imports, the external model run, the
output-pattern search with its internal copy fallback): it either returns
the resulting file system, fails with `PyErr.importError` when `torch` or
`audio_separator` cannot be imported, or fails with another error.  The
source's exception structure, mirrored here: a missing input raises
`FileNotFoundError` up front (lines 72-73); `except ImportError` re-raises
`ImportError` (lines 164-166) WITHOUT running any fallback; `except
Exception` runs State B (`_simple_vocal_separation`, line 174) and, if
that also raises, State C: `shutil.copy2` of the input mix to both output
paths (lines 175-181), whose file-system errors propagate.  A failing
abstracted state is modelled as leaving the file system unchanged (the
primary state's partial writes land in scratch names no later state
reads). -/
def separate_vocals_instrumental (stateA : FS → Except PyErr FS)
    (load : FileData → Except PyErr (List (List ℚ) × ℕ))
    (preemph : List ℚ → List ℚ) (pedal : Option (List ℚ → ℕ → List ℚ))
    (input vocal instr : String) (fs : FS) : Except PyErr (FS × String × String) :=
  if (fs.lookup input).isSome then
    match stateA fs with
    | Except.ok fs2 => Except.ok (fs2, vocal, instr)
    | Except.error PyErr.importError => Except.error PyErr.importError
    | Except.error _ =>
      match simple_vocal_separation load preemph pedal input vocal instr fs with
      | Except.ok fs2 => Except.ok (fs2, vocal, instr)
      | Except.error _ =>
        match copy2 fs input vocal with
        | Except.error e => Except.error e
        | Except.ok fs1 =>
          match copy2 fs1 input instr with
          | Except.error e => Except.error e
          | Except.ok fs2 => Except.ok (fs2, vocal, instr)
  else Except.error PyErr.fsError

/-! ### Theorems -/

/-- Helper: `getD` of a mapped list at an index below the length. -/
theorem getD_map_lt {A B : Type} (f : A → B) (l : List A) (i : ℕ) (h : i < l.length)
    (d : B) (d2 : A) : (l.map f).getD i d = f (l.getD i d2) := by
  rw [List.getD_eq_getElem (l.map f) d (by simpa using h), List.getElem_map,
    List.getD_eq_getElem l d2 h]

/-- Helper: the post-filter step returns the default set when no candidate
survives both filters. -/
theorem formantsPostFilter_empty (cand : List ℚ) (sr : ℕ)
    (hc : ((cand.filter (fun f => decide (f < ((sr / 2 : ℕ) : ℚ)))).filter
      (fun f => decide ((50 : ℚ) < f))).isEmpty = true) :
    formantsPostFilter cand sr = defaultFormants := by
  rw [formantsPostFilter.eq_def, if_pos hc]

/-- Helper: the post-filter step returns a sorted list, and either the
default set or a list of frequencies strictly between 50 and `sr / 2`. -/
theorem formantsPostFilter_sorted_bounded (cand : List ℚ) (sr : ℕ) :
    (formantsPostFilter cand sr).Sorted (· ≤ ·) ∧
      (formantsPostFilter cand sr = defaultFormants ∨
        ∀ f ∈ formantsPostFilter cand sr, 50 < f ∧ f < ((sr / 2 : ℕ) : ℚ)) := by
  rw [formantsPostFilter.eq_def]
  split
  · exact ⟨by decide, Or.inl rfl⟩
  · constructor
    · exact List.sorted_mergeSort' _
    · refine Or.inr fun f hf => ?_
      rw [List.mem_mergeSort, List.mem_filter] at hf
      obtain ⟨hf1, hf2⟩ := hf
      rw [List.mem_filter] at hf1
      exact ⟨of_decide_eq_true hf2, of_decide_eq_true hf1.2⟩

/-- C4: the Formant Estimator returns exactly the default set
`{700, 1220, 2600}` Hz whenever the waveform is shorter than 100 samples —
more generally whenever the LP order `min(12, length/100)` is `≤ 0` or the
length is `≤ 100` — and likewise whenever root finding raises or no
candidate frequency survives the `(50 Hz, Nyquist)` filter; it never raises
(the embedding is a total function, mirroring the source's catch-all
`except` arms). -/
theorem estimate_formants_default_cases (rootFreqs : Except Unit (List ℚ)) (audioLen sr : ℕ)
    (h : audioLen ≤ 100 ∨ min 12 (audioLen / 100) = 0 ∨ rootFreqs = Except.error () ∨
      (∃ cand, rootFreqs = Except.ok cand ∧
        ((cand.filter (fun f => decide (f < ((sr / 2 : ℕ) : ℚ)))).filter
          (fun f => decide ((50 : ℚ) < f))).isEmpty = true)) :
    estimate_formants rootFreqs audioLen sr = [700, 1220, 2600] := by
  rw [estimate_formants.eq_def]
  split
  case isTrue hg =>
    rcases h with h | h | h | ⟨cand, rfl, hc⟩
    · exact absurd hg.2 (Nat.not_lt.2 h)
    · rw [h] at hg
      exact absurd hg.1 (lt_irrefl 0)
    · subst h
      rfl
    · show formantsPostFilter cand sr = [700, 1220, 2600]
      rw [formantsPostFilter_empty cand sr hc]
      rfl
  case isFalse => rfl

/-- Witness for `estimate_formants_default_cases`: a zero-length waveform at
sample rate 8000 yields the default set. -/
theorem estimate_formants_default_cases_witness :
    (0 : ℕ) ≤ 100 ∧ estimate_formants (Except.ok [600]) 0 8000 = [700, 1220, 2600] :=
  ⟨by decide, estimate_formants_default_cases (Except.ok [600]) 0 8000 (Or.inl (by decide))⟩

/-- C7 counterexample: at sample rate 1000 a too-short waveform makes
`estimate_formants` return the fixed fallback set, which contains 2600 Hz;
2600 is not strictly below the Nyquist frequency `1000 / 2 = 500`, so the
claimed invariant fails for this input. -/
theorem estimate_formants_nyquist_counterexample :
    (2600 : ℚ) ∈ estimate_formants (Except.ok []) 0 1000 ∧
      ¬ ((2600 : ℚ) < ((1000 / 2 : ℕ) : ℚ)) := by
  constructor
  · rw [estimate_formants.eq_def, if_neg (by decide)]
    decide
  · norm_num

/-- C7 amended: every FormantSet returned by `estimate_formants` is sorted
in non-decreasing order, and it is either the fixed default fallback set
`[700, 1220, 2600]` — which is returned regardless of the sample rate and
need not lie below Nyquist — or every frequency in it lies strictly between
50 Hz and `sr // 2`. -/
theorem estimate_formants_sorted_bounded (rootFreqs : Except Unit (List ℚ)) (audioLen sr : ℕ) :
    (estimate_formants rootFreqs audioLen sr).Sorted (· ≤ ·) ∧
      (estimate_formants rootFreqs audioLen sr = defaultFormants ∨
        ∀ f ∈ estimate_formants rootFreqs audioLen sr, 50 < f ∧ f < ((sr / 2 : ℕ) : ℚ)) := by
  rw [estimate_formants.eq_def]
  split
  case isTrue hg =>
    cases rootFreqs with
    | error e =>
      refine ⟨?_, Or.inl rfl⟩
      show List.Sorted (· ≤ ·) defaultFormants
      decide
    | ok cand => exact formantsPostFilter_sorted_bounded cand sr
  case isFalse => exact ⟨by decide, Or.inl rfl⟩

/-- Helper: one loop iteration preserves the row count when the magnitude
and frequency lists agree in length. -/
theorem filterStep_length (freqs formants : List ℚ) (r : ℚ) (mag : List (List ℚ)) (i : ℕ) :
    (filterStep freqs formants r mag i).length = min freqs.length mag.length :=
  List.length_zipWith _ _ _

/-- Helper: row `j` after one loop iteration. -/
theorem filterStep_getD (freqs formants : List ℚ) (r : ℚ) (mag : List (List ℚ)) (i j : ℕ)
    (hf : j < freqs.length) (hm : j < mag.length) :
    (filterStep freqs formants r mag i).getD j [] =
      if inFormantBand formants r i (freqs.getD j 0) then
        (mag.getD j []).map (fun m => m * formantScale r)
      else mag.getD j [] := by
  have hlen : j < (filterStep freqs formants r mag i).length := by
    rw [filterStep_length]
    exact lt_min hf hm
  rw [List.getD_eq_getElem _ _ hlen, List.getD_eq_getElem _ _ hm, List.getD_eq_getElem _ _ hf]
  exact List.getElem_zipWith

/-- Helper: closed form of the whole formant loop — row `j` of the result is
row `j` of the input with every entry multiplied by
`formantScale r ^ (number of loop indices in L whose band contains the
centre frequency of row j)`. -/
theorem foldl_filterStep_getD (freqs formants : List ℚ) (r : ℚ) (L : List ℕ) :
    ∀ mag : List (List ℚ), mag.length = freqs.length →
      (L.foldl (filterStep freqs formants r) mag).length = mag.length ∧
      ∀ j, j < mag.length →
        (L.foldl (filterStep freqs formants r) mag).getD j [] =
          (mag.getD j []).map
            (fun m => m * formantScale r ^
              (L.countP (fun i => inFormantBand formants r i (freqs.getD j 0)))) := by
  induction L with
  | nil =>
    intro mag _
    refine ⟨rfl, fun j _ => ?_⟩
    simp
  | cons i L ih =>
    intro mag hlen
    have hstep_len : (filterStep freqs formants r mag i).length = mag.length := by
      rw [filterStep_length, hlen, min_self]
    obtain ⟨ihlen, ihget⟩ := ih (filterStep freqs formants r mag i) (by rw [hstep_len, hlen])
    refine ⟨by rw [List.foldl_cons, ihlen, hstep_len], fun j hj => ?_⟩
    rw [List.foldl_cons, ihget j (by rw [hstep_len]; exact hj),
      filterStep_getD freqs formants r mag i j (hlen ▸ hj) hj, List.countP_cons]
    by_cases hband : inFormantBand formants r i (freqs.getD j 0) = true
    · rw [if_pos hband, List.map_map]
      simp only [hband, if_pos]
      refine List.map_congr_left fun m _ => ?_
      simp only [Function.comp_apply]
      ring
    · rw [if_neg hband, if_neg hband, Nat.add_zero]

/-- C6: in the Formant Shifter every output row of the magnitude matrix is
the input row scaled by the per-band gain — `1 + (r - 1) * 0.5` when the
shift ratio `r > 1`, `0.8 + (r - 1) * 0.4` when `r ≤ 1` — raised to the
number of formant bands containing that row's centre frequency, so
overlapping bands multiply cumulatively; and the STFT phase matrix is
returned completely unchanged. -/
theorem apply_formant_shift_filter_cumulative (magnitude phase : List (List ℚ))
    (freqs formants : List ℚ) (formant_shift : ℚ)
    (hlen : magnitude.length = freqs.length) (j : ℕ) (hj : j < magnitude.length) :
    (apply_formant_shift_filter magnitude freqs formants formant_shift).getD j [] =
      (magnitude.getD j []).map
        (fun m => m *
          (if 1 < formant_shift then 1 + (formant_shift - 1) * (1 / 2)
            else 4 / 5 + (formant_shift - 1) * (2 / 5)) ^
          ((List.range formants.length).countP
            (fun i => inFormantBand formants formant_shift i (freqs.getD j 0)))) ∧
    (apply_formant_shift_core magnitude phase freqs formants formant_shift).2 = phase := by
  refine ⟨?_, rfl⟩
  have h := (foldl_filterStep_getD freqs formants formant_shift (List.range formants.length)
    magnitude hlen).2 j hj
  rw [formantScale.eq_def] at h
  exact h

/-- Witness for `apply_formant_shift_filter_cumulative`: a single 1400 Hz
row with formants `[700, 1220, 2600]` and ratio 2 lies in two overlapping
bands and is scaled by `(3/2)^2 = 9/4`. -/
theorem apply_formant_shift_filter_cumulative_witness :
    (apply_formant_shift_filter [[1]] [1400] [700, 1220, 2600] 2).getD 0 [] = [(9 : ℚ) / 4] := by
  have h := (apply_formant_shift_filter_cumulative [[1]] [[5]] [1400] [700, 1220, 2600] 2
    (by decide) 0 (by decide)).1
  rw [h]
  norm_num [List.range_succ, List.countP_cons, List.countP_nil, inFormantBand, formantBand]

/-- C2 counterexample: at shift ratio exactly 1.0 the magnitude filter
inside `apply_formant_shift` is not the identity: with the default formant
set a 700 Hz row falls in the first two (overlapping) bands and is
multiplied by `0.8 * 0.8 = 16/25`, a change far beyond rounding or
STFT-framing effects, so `apply_formant_shift(x, sr, 1.0)` does not return
`x` up to framing. -/
theorem apply_formant_shift_one_not_identity :
    apply_formant_shift_filter [[1]] [700] [700, 1220, 2600] 1 = [[(16 : ℚ) / 25]] ∧
      ([[(16 : ℚ) / 25]] : List (List ℚ)) ≠ [[1]] := by
  norm_num [apply_formant_shift_filter, filterStep, List.range_succ, inFormantBand,
    formantBand, formantScale]

/-- C2 amended: at shift ratio exactly 1.0 `apply_formant_shift` is a
darkening, not a near-identity: its magnitude filter multiplies every row
whose centre frequency lies in a formant band by `0.8` once per containing
band (rows outside all bands keep exponent 0 and are unchanged), and the
phase is unchanged; the output differs from the input by exactly this
magnitude change plus STFT round-tripping. -/
theorem apply_formant_shift_ratio_one (magnitude phase : List (List ℚ))
    (freqs formants : List ℚ)
    (hlen : magnitude.length = freqs.length) (j : ℕ) (hj : j < magnitude.length) :
    (apply_formant_shift_filter magnitude freqs formants 1).getD j [] =
      (magnitude.getD j []).map
        (fun m => m * (4 / 5 : ℚ) ^
          ((List.range formants.length).countP
            (fun i => inFormantBand formants 1 i (freqs.getD j 0)))) ∧
    (apply_formant_shift_core magnitude phase freqs formants 1).2 = phase := by
  refine ⟨?_, rfl⟩
  have h := (foldl_filterStep_getD freqs formants 1 (List.range formants.length)
    magnitude hlen).2 j hj
  have hs : formantScale 1 = 4 / 5 := by norm_num [formantScale]
  rw [hs] at h
  exact h

/-- Witness for `apply_formant_shift_ratio_one`: the 700 Hz row of the
counterexample input is darkened to `16/25`. -/
theorem apply_formant_shift_ratio_one_witness :
    (apply_formant_shift_filter [[1]] [700] [700, 1220, 2600] 1).getD 0 [] = [(16 : ℚ) / 25] := by
  have h := (apply_formant_shift_ratio_one [[1]] [[2]] [700] [700, 1220, 2600]
    (by decide) 0 (by decide)).1
  rw [h]
  norm_num [List.range_succ, List.countP_cons, List.countP_nil, inFormantBand, formantBand]

/-- C5 counterexample: on the one-row magnitude spectrogram `[[2, 0]]` with
the noise profile taken from the first column, the source subtracts the
mean noise MAGNITUDE and floors at `0.1 ×` the SIGNAL magnitude, giving
output powers `[[1, 0]]`; the spec's power-domain subtraction floored at
`0.1 ×` the NOISE power gives powers `[[2, 2/5]]` — in particular the
spec's floor is strictly positive on the silent column where the code
outputs 0, so the claimed subtraction/floor rule does not describe the
code. -/
theorem remove_noise_simple_counterexample :
    ((remove_noise_simple [[2, 0]] 1 10).map (fun row => row.map (fun m => m ^ 2))) =
        [[(1 : ℚ), 0]] ∧
      remove_noise_spec_power [[2, 0]] 1 = [[(2 : ℚ), 2 / 5]] ∧
      ([[(1 : ℚ), 0]] : List (List ℚ)) ≠ [[(2 : ℚ), 2 / 5]] := by
  norm_num [remove_noise_simple, remove_noise_spec_power, max_def]

/-- C5 amended: in the Target Preprocessor's noise-removal step the noise
profile is the per-bin mean of the first `int(0.5 * sr)` spectrogram
columns, `0.5 ×` that mean noise MAGNITUDE is subtracted from the signal
magnitude spectrum, and the result is floored at `0.1 ×` the SIGNAL
magnitude; when `int(0.5 * sr)` is not smaller than the signal length the
function returns its input unchanged (there is no first-quarter
fallback). -/
theorem remove_noise_simple_spec (magnitude : List (List ℚ)) (noiseLen audioLen : ℕ)
    (i j : ℕ) (hi : i < magnitude.length) (hj : j < (magnitude.getD i []).length) :
    (noiseLen < audioLen →
      ((remove_noise_simple magnitude noiseLen audioLen).getD i []).getD j 0 =
        max ((magnitude.getD i []).getD j 0 -
            (((magnitude.getD i []).take noiseLen).sum /
              (((magnitude.getD i []).take noiseLen).length : ℚ)) * (1 / 2))
          ((magnitude.getD i []).getD j 0 * (1 / 10))) ∧
    (¬ noiseLen < audioLen → remove_noise_simple magnitude noiseLen audioLen = magnitude) := by
  refine ⟨fun hguard => ?_, fun hguard => by rw [remove_noise_simple.eq_def, if_neg hguard]⟩
  rw [remove_noise_simple.eq_def, if_pos hguard, getD_map_lt _ magnitude i hi [] [],
    getD_map_lt _ (magnitude.getD i []) j hj 0 0]

/-- Witness for `remove_noise_simple_spec` at the counterexample input:
the silent column is floored to 0. -/
theorem remove_noise_simple_spec_witness :
    ((remove_noise_simple [[2, 0]] 1 10).getD 0 []).getD 1 0 = 0 := by
  have h := (remove_noise_simple_spec [[2, 0]] 1 10 0 1 (by decide) (by decide)).1 (by decide)
  rw [h]
  norm_num [max_def]

/-- Helper: per-frame characterization of the shared extraction loop — at
any in-range frame the recorded pair is the pitch column and magnitude
column both read at the argmax of the PITCH column. -/
theorem pitch_pairs_getD (P M : List (List ℚ)) (t : ℕ) (ht : t < P.length)
    (ht2 : t < M.length) :
    ((List.zipWith
        (fun pcol mcol => ((pcol.getD (argmaxIdx pcol) 0 : ℚ), (mcol.getD (argmaxIdx pcol) 0 : ℚ)))
        P M).map Prod.fst).getD t 0 =
      (P.getD t []).getD (argmaxIdx (P.getD t [])) 0 ∧
    ((List.zipWith
        (fun pcol mcol => ((pcol.getD (argmaxIdx pcol) 0 : ℚ), (mcol.getD (argmaxIdx pcol) 0 : ℚ)))
        P M).map Prod.snd).getD t 0 =
      (M.getD t []).getD (argmaxIdx (P.getD t [])) 0 := by
  have hz : t < (List.zipWith
      (fun pcol mcol => ((pcol.getD (argmaxIdx pcol) 0 : ℚ), (mcol.getD (argmaxIdx pcol) 0 : ℚ)))
      P M).length := by
    rw [List.length_zipWith]
    exact lt_min ht ht2
  constructor
  · rw [getD_map_lt Prod.fst _ t hz 0 (0, 0), List.getD_eq_getElem _ _ hz,
      List.getElem_zipWith, List.getD_eq_getElem _ _ ht]
  · rw [getD_map_lt Prod.snd _ t hz 0 (0, 0), List.getD_eq_getElem _ _ hz,
      List.getElem_zipWith, List.getD_eq_getElem _ _ ht, List.getD_eq_getElem _ _ ht2]

/-- C8 counterexample: for a one-frame salience map whose pitch column is
`[100, 200]` and magnitude (salience) column is `[5, 1]`, the source
records the pair `(200, 1)` — the bin of maximal FREQUENCY (index 1, via
`pitches[:, t].argmax()`) — while selecting the bin with maximal salience,
as the claim states, would record `(100, 5)` (index 0, salience 5 > 1). -/
theorem extract_pitch_argmax_counterexample :
    extract_pitch_rmvpe (fun _ => ([[100, 200]], [[5, 1]])) = ([200], [1]) ∧
      extract_pitch_bySalience (fun _ => ([[100, 200]], [[5, 1]])) (1 / 10) = ([100], [5]) ∧
      (([200], [1]) : List ℚ × List ℚ) ≠ (([100], [5]) : List ℚ × List ℚ) := by
  refine ⟨?_, ?_, by norm_num [Prod.ext_iff]⟩
  · norm_num [extract_pitch_rmvpe, argmaxIdx]
  · norm_num [extract_pitch_bySalience, argmaxIdx]

/-- C8 amended: the three pitch-extraction strategies are one algorithm
differing only in salience threshold — 0.1 for "rmvpe", 0.2 for "harvest",
0.3 for "pm" — and for every time frame each strategy records one
(frequency, magnitude) pair, both read at the index returned by argmax over
the frame's PITCH column (`pitches[:, t].argmax()`, the bin with maximal
frequency value), not at the bin with maximal salience. -/
theorem extract_pitch_strategies (piptrack : ℚ → PiptrackResult) (t : ℕ)
    (ht : t < (piptrack (1 / 10)).1.length) (ht2 : t < (piptrack (1 / 10)).2.length) :
    extract_pitch_rmvpe piptrack = extract_pitch_threshold piptrack (1 / 10) ∧
    extract_pitch_harvest piptrack = extract_pitch_threshold piptrack (2 / 10) ∧
    extract_pitch_pm piptrack = extract_pitch_threshold piptrack (3 / 10) ∧
    (extract_pitch_rmvpe piptrack).1.getD t 0 =
      ((piptrack (1 / 10)).1.getD t []).getD
        (argmaxIdx ((piptrack (1 / 10)).1.getD t [])) 0 ∧
    (extract_pitch_rmvpe piptrack).2.getD t 0 =
      ((piptrack (1 / 10)).2.getD t []).getD
        (argmaxIdx ((piptrack (1 / 10)).1.getD t [])) 0 := by
  refine ⟨rfl, rfl, rfl, ?_, ?_⟩
  · exact (pitch_pairs_getD (piptrack (1 / 10)).1 (piptrack (1 / 10)).2 t ht ht2).1
  · exact (pitch_pairs_getD (piptrack (1 / 10)).1 (piptrack (1 / 10)).2 t ht ht2).2

/-- Witness for `extract_pitch_strategies` on a one-frame map. -/
theorem extract_pitch_strategies_witness :
    (extract_pitch_rmvpe (fun _ => ([[100, 200]], [[5, 1]]))).1.getD 0 0 =
      (([[(100 : ℚ), 200]] : List (List ℚ)).getD 0 []).getD
        (argmaxIdx (([[(100 : ℚ), 200]] : List (List ℚ)).getD 0 [])) 0 :=
  (extract_pitch_strategies (fun _ => ([[100, 200]], [[5, 1]])) 0
    (by decide) (by decide)).2.2.2.1

/-- C3: in the Conversion Engine, whenever the pitch-shift semitone
parameter `s` is non-zero the extracted pitch track is multiplied
elementwise by exactly `2 ^ (s / 12)`; in particular for `s = 12` every
pitch value is scaled by exactly 2, and for `s = 0` the track is left
completely unchanged. -/
theorem convert_voice_pitch_scaling (pow2 : ℚ → ℝ)
    (hpow : ∀ q : ℚ, pow2 q = (2 : ℝ) ^ (q : ℝ)) (s : ℤ) (p : List ℝ) :
    (s ≠ 0 → pitch_track_shift pow2 s p = p.map (fun x => x * (2 : ℝ) ^ ((s : ℝ) / 12))) ∧
    pitch_track_shift pow2 12 p = p.map (fun x => x * 2) ∧
    pitch_track_shift pow2 0 p = p := by
  refine ⟨fun hs => ?_, ?_, ?_⟩
  · rw [pitch_track_shift.eq_def, if_pos hs]
    simp only [hpow]
    have hcast : (((s : ℚ) / 12 : ℚ) : ℝ) = (s : ℝ) / 12 := by push_cast; ring
    simp only [hcast]
  · rw [pitch_track_shift.eq_def, if_pos (by decide : (12 : ℤ) ≠ 0)]
    simp only [hpow]
    norm_num
  · rw [pitch_track_shift.eq_def, if_neg (by decide : ¬((0 : ℤ) ≠ 0))]

/-- Witness for `convert_voice_pitch_scaling`: the pitch value 1 is scaled
to 2 at `s = 12` and untouched at `s = 0`, with `pow2` instantiated to the
real power function. -/
theorem convert_voice_pitch_scaling_witness :
    pitch_track_shift (fun q : ℚ => (2 : ℝ) ^ ((q : ℚ) : ℝ)) 12 [1] = [(2 : ℝ)] ∧
      pitch_track_shift (fun q : ℚ => (2 : ℝ) ^ ((q : ℚ) : ℝ)) 0 [1] = [(1 : ℝ)] := by
  have h := convert_voice_pitch_scaling (fun q : ℚ => (2 : ℝ) ^ ((q : ℚ) : ℝ))
    (fun q => rfl) 12 [(1 : ℝ)]
  have h0 := convert_voice_pitch_scaling (fun q : ℚ => (2 : ℝ) ^ ((q : ℚ) : ℝ))
    (fun q => rfl) 0 [(1 : ℝ)]
  refine ⟨?_, h0.2.2⟩
  rw [h.2.1]
  norm_num

/-- C10: every algorithm-selector string other than "rmvpe" and "harvest"
— including arbitrary strings outside the documented three-value enum — is
silently routed to the "pm" pitch extractor; the dispatch never rejects a
request with an error (the embedding is total). -/
theorem convert_voice_unknown_algorithm (piptrack : ℚ → PiptrackResult) (algorithm : String)
    (h1 : algorithm ≠ "rmvpe") (h2 : algorithm ≠ "harvest") :
    select_pitch_track piptrack algorithm = extract_pitch_pm piptrack := by
  rw [select_pitch_track.eq_def, if_neg h1, if_neg h2]

/-- Witness for `convert_voice_unknown_algorithm` at the selector
string "xyz". -/
theorem convert_voice_unknown_algorithm_witness :
    select_pitch_track (fun _ => ([[1]], [[2]])) ("xyz") =
      extract_pitch_pm (fun _ => ([[1]], [[2]])) :=
  convert_voice_unknown_algorithm (fun _ => ([[1]], [[2]])) ("xyz") (by decide) (by decide)

/-- Helper: lookup after a write. -/
theorem lookup_fsSet (fs : FS) (p q : String) (d : FileData) :
    (fsSet fs q d).lookup p = if p == q then some d else fs.lookup p := by
  cases h : p == q with
  | true => simp [fsSet, List.lookup, h]
  | false => simp [fsSet, List.lookup, h]

/-- Helper: lookup of the written path. -/
theorem lookup_fsSet_self (fs : FS) (p : String) (d : FileData) :
    (fsSet fs p d).lookup p = some d := by
  rw [lookup_fsSet, if_pos (by simp)]

/-- Helper: a write of the same contents preserves a lookup result. -/
theorem lookup_fsSet_same (fs : FS) (p q : String) (d : FileData)
    (h : fs.lookup p = some d) : (fsSet fs q d).lookup p = some d := by
  rw [lookup_fsSet]
  split
  · rfl
  · exact h

/-- Helper: when the primary state fails with a non-ImportError exception
and State B also fails, the function reaches State C and returns the file
system with the input file copied to both output paths. -/
theorem separate_stateC_eq (stateA : FS → Except PyErr FS)
    (load : FileData → Except PyErr (List (List ℚ) × ℕ))
    (preemph : List ℚ → List ℚ) (pedal : Option (List ℚ → ℕ → List ℚ))
    (input vocal instr : String) (fs : FS) (fd : FileData)
    (hin : fs.lookup input = some fd)
    (eA : PyErr) (hA : stateA fs = Except.error eA) (hA2 : eA ≠ PyErr.importError)
    (eB : PyErr)
    (hB : simple_vocal_separation load preemph pedal input vocal instr fs =
      Except.error eB) :
    separate_vocals_instrumental stateA load preemph pedal input vocal instr fs =
      Except.ok (fsSet (fsSet fs vocal fd) instr fd, vocal, instr) := by
  have hc1 : copy2 fs input vocal = Except.ok (fsSet fs vocal fd) := by
    rw [copy2.eq_def, hin]
  have hc2 : copy2 (fsSet fs vocal fd) input instr =
      Except.ok (fsSet (fsSet fs vocal fd) instr fd) := by
    rw [copy2.eq_def, lookup_fsSet_same fs input vocal fd hin]
  rw [separate_vocals_instrumental.eq_def, if_pos (by rw [hin]; rfl), hA]
  cases eA with
  | importError => exact absurd rfl hA2
  | fsError => simp only [hB, hc1, hc2]
  | exc => simp only [hB, hc1, hc2]

/-- Helper: when the primary state fails with a non-ImportError exception
and State B succeeds, the function returns State B's file system. -/
theorem separate_stateB_eq (stateA : FS → Except PyErr FS)
    (load : FileData → Except PyErr (List (List ℚ) × ℕ))
    (preemph : List ℚ → List ℚ) (pedal : Option (List ℚ → ℕ → List ℚ))
    (input vocal instr : String) (fs : FS)
    (hin : (fs.lookup input).isSome = true)
    (eA : PyErr) (hA : stateA fs = Except.error eA) (hA2 : eA ≠ PyErr.importError)
    (fsB : FS)
    (hB : simple_vocal_separation load preemph pedal input vocal instr fs =
      Except.ok fsB) :
    separate_vocals_instrumental stateA load preemph pedal input vocal instr fs =
      Except.ok (fsB, vocal, instr) := by
  rw [separate_vocals_instrumental.eq_def, if_pos hin, hA]
  cases eA with
  | importError => exact absurd rfl hA2
  | fsError => simp only [hB]
  | exc => simp only [hB]

/-- Helper: when State B succeeds on a present input file, both output
paths hold files and both are non-empty (either freshly written WAV
containers, or byte-identical copies of the non-empty input). -/
theorem simple_vocal_separation_outputs
    (load : FileData → Except PyErr (List (List ℚ) × ℕ))
    (preemph : List ℚ → List ℚ) (pedal : Option (List ℚ → ℕ → List ℚ))
    (input vocal instr : String) (fs : FS) (fd : FileData) (fsB : FS)
    (hin : fs.lookup input = some fd) (hne : fileNonEmpty fd = true)
    (hB : simple_vocal_separation load preemph pedal input vocal instr fs =
      Except.ok fsB) :
    (∃ dv, fsB.lookup vocal = some dv ∧ fileNonEmpty dv = true) ∧
    (∃ di, fsB.lookup instr = some di ∧ fileNonEmpty di = true) := by
  simp only [simple_vocal_separation.eq_def, hin] at hB
  cases hload : load fd with
  | error e =>
    simp only [hload] at hB
    exact absurd hB (by simp)
  | ok ysr =>
    obtain ⟨y0, sr⟩ := ysr
    simp only [hload] at hB
    by_cases hlen : 2 ≤ (stereoFix y0).length
    · rw [if_pos hlen] at hB
      simp only [Except.ok.injEq] at hB
      subst hB
      refine ⟨?_, ?_⟩
      · by_cases hvi : vocal = instr
        · subst hvi
          refine ⟨_, lookup_fsSet_self _ _ _, ?_⟩
          rfl
        · refine ⟨FileData.wav sr
              [pedalApply pedal
                (preemph (List.zipWith (fun l r => (l + r) / 2)
                  ((stereoFix y0).getD 0 []) ((stereoFix y0).getD 1 []))) sr], ?_, rfl⟩
          rw [lookup_fsSet, if_neg (by simpa using hvi)]
          exact lookup_fsSet_self _ _ _
      · refine ⟨_, lookup_fsSet_self _ _ _, ?_⟩
        rfl
    · rw [if_neg hlen] at hB
      simp only [copy2.eq_def, hin, lookup_fsSet_same fs input vocal fd hin] at hB
      simp only [Except.ok.injEq] at hB
      subst hB
      refine ⟨⟨fd, ?_, hne⟩, ⟨fd, lookup_fsSet_self _ _ _, hne⟩⟩
      exact lookup_fsSet_same _ vocal instr fd (lookup_fsSet_self _ _ _)

/-- C1 counterexample: with the input mix present and non-empty, a primary
stage that fails with `ImportError` (missing `torch` or `audio-separator`)
makes `separate_vocals_instrumental` re-raise `ImportError` without
running any fallback: the call returns a total failure that is not a
file-system error, and no stem file is produced. -/
theorem separate_importError_escapes :
    separate_vocals_instrumental (fun _ => Except.error PyErr.importError)
      (fun _ => Except.error PyErr.exc) (fun v => v) none
      ("mix.wav") ("vocal.wav") ("inst.wav")
      [(("mix.wav"), FileData.bytes [1])] = Except.error PyErr.importError := rfl

/-- C1 amended: if the primary stage fails with any exception OTHER than
`ImportError`, the fallback chain runs and, for a present non-empty input
mix, both the vocal stem and the instrumental stem exist and are non-empty
on return; an `ImportError` from the primary stage, however, is re-raised
and no fallback runs (`separate_importError_escapes`), and otherwise total
failure occurs only on a file-system error. -/
theorem separate_fallback_behaviour (stateA : FS → Except PyErr FS)
    (load : FileData → Except PyErr (List (List ℚ) × ℕ))
    (preemph : List ℚ → List ℚ) (pedal : Option (List ℚ → ℕ → List ℚ))
    (input vocal instr : String) (fs : FS) (fd : FileData)
    (hin : fs.lookup input = some fd) (hne : fileNonEmpty fd = true)
    (eA : PyErr) (hA : stateA fs = Except.error eA) (hA2 : eA ≠ PyErr.importError) :
    ∃ fs2, separate_vocals_instrumental stateA load preemph pedal input vocal instr fs =
        Except.ok (fs2, vocal, instr) ∧
      (∃ dv, fs2.lookup vocal = some dv ∧ fileNonEmpty dv = true) ∧
      (∃ di, fs2.lookup instr = some di ∧ fileNonEmpty di = true) := by
  cases hB : simple_vocal_separation load preemph pedal input vocal instr fs with
  | ok fsB =>
    exact ⟨fsB,
      separate_stateB_eq stateA load preemph pedal input vocal instr fs
        (by rw [hin]; rfl) eA hA hA2 fsB hB,
      simple_vocal_separation_outputs load preemph pedal input vocal instr fs fd fsB
        hin hne hB⟩
  | error eB =>
    refine ⟨fsSet (fsSet fs vocal fd) instr fd,
      separate_stateC_eq stateA load preemph pedal input vocal instr fs fd hin
        eA hA hA2 eB hB, ⟨fd, ?_, hne⟩, ⟨fd, lookup_fsSet_self _ _ _, hne⟩⟩
    exact lookup_fsSet_same _ vocal instr fd (lookup_fsSet_self _ _ _)

/-- Witness for `separate_fallback_behaviour`: a CUDA-style runtime error
in the primary stage on a two-channel mix; State B writes both stems. -/
theorem separate_fallback_behaviour_witness :
    ∃ fs2, separate_vocals_instrumental (fun _ => Except.error PyErr.exc)
        (fun _ => Except.ok ([[1, 2], [3, 4]], 44100)) (fun v => v) none
        ("mix.wav") ("vocal.wav") ("inst.wav")
        [(("mix.wav"), FileData.bytes [1])] =
        Except.ok (fs2, ("vocal.wav"), ("inst.wav")) ∧
      (∃ dv, fs2.lookup ("vocal.wav") = some dv ∧ fileNonEmpty dv = true) ∧
      (∃ di, fs2.lookup ("inst.wav") = some di ∧ fileNonEmpty di = true) :=
  separate_fallback_behaviour (fun _ => Except.error PyErr.exc)
    (fun _ => Except.ok ([[1, 2], [3, 4]], 44100)) (fun v => v) none
    ("mix.wav") ("vocal.wav") ("inst.wav")
    [(("mix.wav"), FileData.bytes [1])] (FileData.bytes [1])
    rfl rfl PyErr.exc rfl (by decide)

/-- C9: when the primary state fails with a non-ImportError exception and
State B also fails, State C copies the original input mix byte-identically
to both the vocal and the instrumental output paths and returns them; in
the model State C's only failure mode is `copy2`'s file-system error,
which propagates to the caller (here ruled out because the entry check
guarantees the input file exists). -/
theorem separate_stateC_copies (stateA : FS → Except PyErr FS)
    (load : FileData → Except PyErr (List (List ℚ) × ℕ))
    (preemph : List ℚ → List ℚ) (pedal : Option (List ℚ → ℕ → List ℚ))
    (input vocal instr : String) (fs : FS) (fd : FileData)
    (hin : fs.lookup input = some fd)
    (eA : PyErr) (hA : stateA fs = Except.error eA) (hA2 : eA ≠ PyErr.importError)
    (eB : PyErr)
    (hB : simple_vocal_separation load preemph pedal input vocal instr fs =
      Except.error eB) :
    separate_vocals_instrumental stateA load preemph pedal input vocal instr fs =
      Except.ok (fsSet (fsSet fs vocal fd) instr fd, vocal, instr) ∧
    (fsSet (fsSet fs vocal fd) instr fd).lookup vocal = some fd ∧
    (fsSet (fsSet fs vocal fd) instr fd).lookup instr = some fd :=
  ⟨separate_stateC_eq stateA load preemph pedal input vocal instr fs fd hin
      eA hA hA2 eB hB,
    lookup_fsSet_same _ vocal instr fd (lookup_fsSet_self _ _ _),
    lookup_fsSet_self _ _ _⟩

/-- Witness for `separate_stateC_copies`: both the external model and the
librosa load fail, and the input bytes appear verbatim at both output
paths. -/
theorem separate_stateC_copies_witness :
    separate_vocals_instrumental (fun _ => Except.error PyErr.exc)
        (fun _ => Except.error PyErr.exc) (fun v => v) none
        ("mix.wav") ("vocal.wav") ("inst.wav")
        [(("mix.wav"), FileData.bytes [7])] =
      Except.ok
        (fsSet (fsSet [(("mix.wav"), FileData.bytes [7])] ("vocal.wav") (FileData.bytes [7]))
          ("inst.wav") (FileData.bytes [7]), ("vocal.wav"), ("inst.wav")) ∧
    (fsSet (fsSet [(("mix.wav"), FileData.bytes [7])] ("vocal.wav") (FileData.bytes [7]))
        ("inst.wav") (FileData.bytes [7])).lookup ("vocal.wav") = some (FileData.bytes [7]) ∧
    (fsSet (fsSet [(("mix.wav"), FileData.bytes [7])] ("vocal.wav") (FileData.bytes [7]))
        ("inst.wav") (FileData.bytes [7])).lookup ("inst.wav") = some (FileData.bytes [7]) :=
  separate_stateC_copies (fun _ => Except.error PyErr.exc)
    (fun _ => Except.error PyErr.exc) (fun v => v) none
    ("mix.wav") ("vocal.wav") ("inst.wav")
    [(("mix.wav"), FileData.bytes [7])] (FileData.bytes [7])
    rfl PyErr.exc rfl (by decide) PyErr.exc rfl
